import Mathlib

/-
Verification of the SDLC pipeline orchestrator (src/sdlc-ai-extension-master/src/extension.ts).

The extension keeps its whole pipeline state in mutable fields of the
SdlcAiViewProvider class: agentOutputs (agent name to task-name-to-value map),
agentSequence, currentAgentIndex (starts at -1), initialInputs and
tempFilePaths.  The model below embeds that state as ProviderState and the
handlers processNextAgent, validateCurrentAgentOutput and validateTask as pure
state-transition functions.  Task values are opaque to the code (TypeScript
type any), so the model is parametric in a value type V.  The two HTTP
collaborators (agent invocation endpoints and the /agent/validate endpoint)
are modelled as oracle functions returning Except; a thrown JavaScript Error
is modelled by the JsError type, whose display form mirrors template-string
interpolation of an Error object and whose message field mirrors .message.
Observable outputs (webview postMessage calls, showInformationMessage and
showErrorMessage popups, and the outgoing fetch of a dispatch) are collected
in an event list.
-/

namespace SdlcAi

/-- Shared pipeline inputs saved by the startAgents message
(this.initialInputs in the source). -/
structure InitialInputs where
  requirements : String
  context : String
  title : String
  agents : List String
deriving DecidableEq

/-- Output of one agent: a JavaScript object mapping task names to values,
modelled as an insertion-ordered association list. -/
abbrev TaskOutput (V : Type) := List (String × V)

/-- Property read obj[k] on a JavaScript object modelled as an association
list: the value at the first occurrence of the key, none when absent
(undefined). -/
def getKey {α : Type} : List (String × α) → String → Option α
  | [], _ => none
  | (k2, v) :: rest, k => if k2 = k then some v else getKey rest k

/-- Property write obj[k] = v on a JavaScript object modelled as an
association list: replaces the value at the first occurrence of the key in
place, appends at the end when the key is absent. -/
def setKey {α : Type} : List (String × α) → String → α → List (String × α)
  | [], k, v => [(k, v)]
  | (k2, v2) :: rest, k, v =>
      if k2 = k then (k, v) :: rest else (k2, v2) :: setKey rest k v

theorem getKey_setKey_self {α : Type} (m : List (String × α)) (k : String) (v : α) :
    getKey (setKey m k v) k = some v := by
  induction m with
  | nil => simp [setKey, getKey]
  | cons hd tl ih =>
    obtain ⟨k2, v2⟩ := hd
    by_cases h : k2 = k
    · simp [setKey, getKey, h]
    · simp [setKey, getKey, h, ih]

theorem getKey_setKey_ne {α : Type} (m : List (String × α)) (k k2 : String) (v : α)
    (h : k ≠ k2) : getKey (setKey m k v) k2 = getKey m k2 := by
  induction m with
  | nil => simp [setKey, getKey, h]
  | cons hd tl ih =>
    obtain ⟨k3, v3⟩ := hd
    by_cases h3 : k3 = k
    · subst h3
      simp [setKey, getKey, h]
    · simp [setKey, getKey, h3, ih]

theorem setKey_eq_of_getKey_eq {α : Type} (m : List (String × α)) (k : String) (v : α)
    (h : getKey m k = some v) : setKey m k v = m := by
  induction m with
  | nil => simp [getKey] at h
  | cons hd tl ih =>
    obtain ⟨k2, v2⟩ := hd
    by_cases h2 : k2 = k
    · subst h2
      simp [getKey] at h
      simp [setKey, h]
    · simp [getKey, h2] at h
      simp [setKey, h2, ih h]

theorem getKey_eq_of_mem_nodup {α : Type} (m : List (String × α)) (k : String) (v : α)
    (hnd : (m.map Prod.fst).Nodup) (hm : (k, v) ∈ m) : getKey m k = some v := by
  induction m with
  | nil => simp at hm
  | cons hd tl ih =>
    obtain ⟨k2, v2⟩ := hd
    simp only [List.map_cons, List.nodup_cons] at hnd
    rcases List.mem_cons.mp hm with h | h
    · obtain ⟨hk, hv⟩ := Prod.mk.injEq .. ▸ h
      simp [getKey, hk.symm, hv]
    · by_cases h2 : k2 = k
      · exfalso
        apply hnd.1
        subst h2
        exact List.mem_map.mpr ⟨(k2, v), h, rfl⟩
      · simp [getKey, h2, ih hnd.2 h]

theorem setKey_setKey {α : Type} (m : List (String × α)) (k : String) (v w : α) :
    setKey (setKey m k v) k w = setKey m k w := by
  induction m with
  | nil => simp [setKey]
  | cons hd tl ih =>
    obtain ⟨k2, v2⟩ := hd
    by_cases h : k2 = k
    · simp [setKey, h]
    · simp [setKey, h, ih]

/-- Body of the JSON request sent to an agent endpoint.  The source builds a
different object literal per agent (lines 137-183); the union of the fields
used is collected here, with Option none standing for a field that the given
literal omits (equivalently, that reads as undefined because the referenced
predecessor has no entry in agentOutputs).  JSON.stringify drops such
fields. -/
structure AgentPayload (V : Type) where
  user_requirements : Option String
  project_context : Option String
  title : Option String
  requirement_output : Option (TaskOutput V)
  knowledge_output : Option (TaskOutput V)
  architecture_output : Option (TaskOutput V)
  skeleton_output : Option (TaskOutput V)
deriving DecidableEq

/-- Observable outputs of the provider: webview postMessage calls, the
outgoing fetch of an agent dispatch, and the VS Code popup messages. -/
inductive Event (V : Type) where
  | setAgentSequence (agents : List String)
  | agentStarted (agent : String)
  | apiCall (endpoint : String) (payload : AgentPayload V)
  | validateAgentMsg (agent : String) (tasks : List String) (outputs : TaskOutput V)
  | agentValidated (agent : String)
  | taskValidated (agentName : String) (taskName : String)
  | agentsCompleted
  | errorMsg (message : String)
  | infoMsg (message : String)
  | showErrorMsg (message : String)
deriving DecidableEq

/-- Mutable fields of SdlcAiViewProvider (lines 35-39 of the source). -/
structure ProviderState (V : Type) where
  agentOutputs : List (String × TaskOutput V)
  agentSequence : List String
  currentAgentIndex : Int
  initialInputs : Option InitialInputs
  tempFilePaths : List (String × String)
deriving DecidableEq

/-- Thrown JavaScript error values.  err models new Error(msg); typeError
models the TypeError raised by a property write on undefined. -/
inductive JsError where
  | err (msg : String)
  | typeError (msg : String)
deriving DecidableEq

/-- String interpolation of an Error object, as in template literals of the
source (prefix Error: or TypeError:). -/
def JsError.display : JsError → String
  | .err m => "Error: " ++ m
  | .typeError m => "TypeError: " ++ m

/-- The .message property of an Error object. -/
def JsError.message : JsError → String
  | .err m => m
  | .typeError m => m

/-- Oracle for the agent endpoints reached through callApiEndpoint: given the
endpoint path and the request payload, either the parsed response object or
the message of the Error thrown on a non-ok status or transport failure. -/
abbrev InvokeOracle (V : Type) := String → AgentPayload V → Except String (TaskOutput V)

/-- Oracle for the /agent/validate endpoint: given task_name and
modified_output, acknowledgment or the message of the thrown Error. -/
abbrev ValidateOracle (V : Type) := String → V → Except String Unit

/-- Payload shared by the KnowledgeBase and Requirements branches of the
switch in processNextAgent (lines 138-152): user_requirements,
project_context and title from the saved initial inputs. -/
def basePayload {V : Type} (inputs : InitialInputs) : AgentPayload V :=
  { user_requirements := some inputs.requirements
    project_context := some inputs.context
    title := some inputs.title
    requirement_output := none
    knowledge_output := none
    architecture_output := none
    skeleton_output := none }

/-- Endpoint and payload chosen by the switch statement of processNextAgent
(lines 137-183).  Predecessor outputs are read straight from agentOutputs;
an absent entry yields none (undefined in the source) with no error.  The
default branch (throw Unknown agent) is the none result. -/
def resolveAgentCall {V : Type} (inputs : InitialInputs)
    (store : List (String × TaskOutput V)) (agent : String) :
    Option (String × AgentPayload V) :=
  if agent = "KnowledgeBase" then
    some ("/agent/knowledge", basePayload inputs)
  else if agent = "Requirements" then
    some ("/agent/requirements", basePayload inputs)
  else if agent = "Architecture" then
    some ("/agent/architecture",
      { basePayload inputs with
          requirement_output := getKey store "Requirements"
          knowledge_output := getKey store "KnowledgeBase" })
  else if agent = "Skeletons" then
    some ("/agent/skeleton",
      { user_requirements := none
        project_context := some inputs.context
        title := some inputs.title
        requirement_output := none
        knowledge_output := none
        architecture_output := getKey store "Architecture"
        skeleton_output := none })
  else if agent = "Generator" then
    some ("/agent/codegen",
      { user_requirements := none
        project_context := some inputs.context
        title := some inputs.title
        requirement_output := none
        knowledge_output := none
        architecture_output := getKey store "Architecture"
        skeleton_output := getKey store "Skeletons" })
  else
    none

/-- Transition of processNextAgent (lines 116-203).  Returns the new state,
the emitted events, and some error when the function throws to its caller
(only the Initial inputs not set throw escapes; every other failure is
handled inside and surfaced as an error event).  Mirrors the source order:
increment currentAgentIndex, check initialInputs, check end of sequence,
post agentStarted, build the payload, perform the fetch; on success store
the output in agentOutputs, record the temp file and post validateAgent; on
a thrown invocation or unknown-agent error post the agent-failed message. -/
def processNextAgent {V : Type} (invoke : InvokeOracle V) (s : ProviderState V) :
    ProviderState V × List (Event V) × Option JsError :=
  let s1 := { s with currentAgentIndex := s.currentAgentIndex + 1 }
  match s1.initialInputs with
  | none => (s1, [], some (.err "Initial inputs not set"))
  | some inputs =>
    if (s1.agentSequence.length : Int) ≤ s1.currentAgentIndex then
      (s1, [.agentsCompleted, .infoMsg "SDLC Process completed successfully"], none)
    else
      let agent := s1.agentSequence.getD s1.currentAgentIndex.toNat ""
      match resolveAgentCall inputs s1.agentOutputs agent with
      | none =>
          (s1, [.agentStarted agent,
                .errorMsg ("Agent " ++ agent ++ " failed: Error: Unknown agent: " ++ agent)],
           none)
      | some (endpoint, payload) =>
        match invoke endpoint payload with
        | .error e =>
            (s1, [.agentStarted agent, .apiCall endpoint payload,
                  .errorMsg ("Agent " ++ agent ++ " failed: Error: " ++ e)],
             none)
        | .ok output =>
            ({ s1 with
                agentOutputs := setKey s1.agentOutputs agent output
                tempFilePaths := setKey s1.tempFilePaths agent (agent ++ ".json") },
             [.agentStarted agent, .apiCall endpoint payload,
              .infoMsg (agent ++ " results are now open in the editor. Review and validate when ready."),
              .validateAgentMsg agent (output.map Prod.fst) output],
             none)

/-- Transition of validateTask (lines 296-302).  The validation fetch runs
first; only after it resolves is agentOutputs updated and taskValidated
posted.  When the fetch rejects the thrown Error propagates to the caller
(the error result).  When agentOutputs has no entry for the agent the
property write on undefined raises a TypeError, also propagated. -/
def validateTask {V : Type} (vo : ValidateOracle V) (agentName taskName : String)
    (output : V) (s : ProviderState V) :
    Except JsError (ProviderState V × List (Event V)) :=
  match vo taskName output with
  | .error e => .error (.err e)
  | .ok _ =>
    match getKey s.agentOutputs agentName with
    | none =>
        .error (.typeError ("Cannot set properties of undefined (setting " ++ taskName ++ ")"))
    | some out =>
        .ok ({ s with agentOutputs := setKey s.agentOutputs agentName (setKey out taskName output) },
             [.taskValidated agentName taskName])

/-- Loop of validateCurrentAgentOutput over Object.keys(updatedOutput)
(lines 263-265) together with the surrounding inner try/catch: tasks are
validated in order; the first thrown error stops the loop and is reported
with the Invalid JSON format popup (line 281, which interpolates
error.message); when every task validates, agentValidated is posted and the
success popup shown (lines 268-274). -/
def validateAllTasks {V : Type} (vo : ValidateOracle V) (agent : String) :
    List (String × V) → ProviderState V → List (Event V) →
    ProviderState V × List (Event V)
  | [], s, acc =>
      (s, acc ++ [.agentValidated agent,
                  .infoMsg (agent ++ " output validated successfully.")])
  | (t, v) :: rest, s, acc =>
      match validateTask vo agent t v s with
      | .error e =>
          (s, acc ++ [.showErrorMsg ("Invalid JSON format: " ++ e.message
              ++ ". Please fix the errors and try again.")])
      | .ok (s2, evs) => validateAllTasks vo agent rest s2 (acc ++ evs)

/-- Human edit outcome of the temp file content: either it re-parses
(JSON.parse succeeds) into a task map, or JSON.parse throws with the given
message. -/
inductive ReviewContent (V : Type) where
  | wellFormed (output : TaskOutput V)
  | malformed (parseError : String)
deriving DecidableEq

/-- Transition of validateCurrentAgentOutput (lines 243-294).  When no temp
file is recorded for the agent the thrown Error is caught by the outer catch
and shown (line 289).  A parse failure is caught by the inner catch and
shown as Invalid JSON format with no state change (line 281).  On a
successful parse the whole edited object is written into agentOutputs (line
260) and every task is sent to validation in order. -/
def validateCurrentAgentOutput {V : Type} (vo : ValidateOracle V) (agent : String)
    (content : ReviewContent V) (s : ProviderState V) :
    ProviderState V × List (Event V) :=
  match getKey s.tempFilePaths agent with
  | none =>
      (s, [.showErrorMsg ("Error validating output: No file found for agent " ++ agent)])
  | some _ =>
    match content with
    | .malformed msg =>
        (s, [.showErrorMsg ("Invalid JSON format: " ++ msg
            ++ ". Please fix the errors and try again.")])
    | .wellFormed updatedOutput =>
        validateAllTasks vo agent updatedOutput
          { s with agentOutputs := setKey s.agentOutputs agent updatedOutput } []

/-- External stimuli of the provider: the webview messages startAgents,
continueAgent and validateTask (lines 60-93), and the human clicking
Validate on the notification after editing the opened file, which runs
validateCurrentAgentOutput (lines 229-236). -/
inductive Action (V : Type) where
  | startAgents (data : InitialInputs)
  | continueAgent
  | validateTaskMsg (agentName taskName : String) (output : V)
  | humanValidate (agent : String) (content : ReviewContent V)

/-- Fields of a freshly constructed SdlcAiViewProvider (lines 35-39). -/
def initState (V : Type) : ProviderState V :=
  { agentOutputs := []
    agentSequence := []
    currentAgentIndex := -1
    initialInputs := none
    tempFilePaths := [] }

/-- One step of the message handler of resolveWebviewView (lines 57-101)
or of the human validate action.  Errors thrown out of a message handler
are caught at lines 94-97 and posted as Failed to process request. -/
def step {V : Type} (invoke : InvokeOracle V) (vo : ValidateOracle V)
    (s : ProviderState V) (a : Action V) : ProviderState V × List (Event V) :=
  match a with
  | .startAgents data =>
      let s0 : ProviderState V :=
        { agentOutputs := []
          agentSequence := data.agents
          currentAgentIndex := -1
          initialInputs := some data
          tempFilePaths := [] }
      let r := processNextAgent invoke s0
      match r.2.2 with
      | some e =>
          (r.1, Event.setAgentSequence data.agents ::
            (r.2.1 ++ [.errorMsg ("Failed to process request: " ++ e.display)]))
      | none => (r.1, Event.setAgentSequence data.agents :: r.2.1)
  | .continueAgent =>
      let r := processNextAgent invoke s
      match r.2.2 with
      | some e =>
          (r.1, r.2.1 ++ [.errorMsg ("Failed to process request: " ++ e.display)])
      | none => (r.1, r.2.1)
  | .validateTaskMsg agentName taskName output =>
      match validateTask vo agentName taskName output s with
      | .error e => (s, [.errorMsg ("Failed to process request: " ++ e.display)])
      | .ok (s2, evs) => (s2, evs)
  | .humanValidate agent content => validateCurrentAgentOutput vo agent content s

/-- Processing of a sequence of external stimuli from a given state and
event log, accumulating the emitted events. -/
def runFrom {V : Type} (invoke : InvokeOracle V) (vo : ValidateOracle V) :
    List (Action V) → ProviderState V × List (Event V) →
    ProviderState V × List (Event V)
  | [], p => p
  | a :: rest, p =>
      let r := step invoke vo p.1 a
      runFrom invoke vo rest (r.1, p.2 ++ r.2)

/-- Run of a sequence of external stimuli from a fresh provider,
accumulating the emitted events. -/
def run {V : Type} (invoke : InvokeOracle V) (vo : ValidateOracle V)
    (actions : List (Action V)) : ProviderState V × List (Event V) :=
  runFrom invoke vo actions (initState V, [])

/-! Concrete instances used to evaluate the model on closed inputs.  Task
values are instantiated at Nat. -/

/-- Invocation oracle whose every endpoint answers with the single task
task1 mapped to 1. -/
def invokeOk : InvokeOracle Nat := fun _ _ => .ok [("task1", 1)]

/-- Invocation oracle whose every endpoint rejects with a status-500
failure. -/
def invokeFail : InvokeOracle Nat := fun _ _ => .error "API call failed with status 500"

/-- Validation oracle that acknowledges every task. -/
def validateOk : ValidateOracle Nat := fun _ _ => .ok ()

/-- Validation oracle that rejects exactly the named task with a status-500
failure and acknowledges every other task. -/
def validateFailOn (bad : String) : ValidateOracle Nat :=
  fun t _ => if t = bad then .error "API call failed with status 500" else .ok ()

/-- Run inputs selecting only the Requirements agent. -/
def inputsReq : InitialInputs :=
  { requirements := "r", context := "c", title := "t", agents := ["Requirements"] }

/-- Run inputs selecting Requirements then Architecture. -/
def inputsReqArch : InitialInputs :=
  { requirements := "r", context := "c", title := "t",
    agents := ["Requirements", "Architecture"] }

/-- Run inputs selecting only the Architecture agent, so that its declared
predecessors Requirements and KnowledgeBase have no stored output. -/
def inputsArchOnly : InitialInputs :=
  { requirements := "r", context := "c", title := "t", agents := ["Architecture"] }

/-- Run inputs selecting an agent name outside the five known names. -/
def inputsUnknown : InitialInputs :=
  { requirements := "r", context := "c", title := "t", agents := ["Deploy"] }

/-- Provider state about to dispatch Requirements: a run of inputsReq has
been started but processNextAgent has not yet advanced the index. -/
def sBeforeReq : ProviderState Nat :=
  { agentOutputs := []
    agentSequence := ["Requirements"]
    currentAgentIndex := -1
    initialInputs := some inputsReq
    tempFilePaths := [] }

/-- Provider state of a run of inputsReqArch that has dispatched
Requirements (raw output stored, temp file open) and awaits its review. -/
def sAwaitReq : ProviderState Nat :=
  { agentOutputs := [("Requirements", [("task1", 1)])]
    agentSequence := ["Requirements", "Architecture"]
    currentAgentIndex := 0
    initialInputs := some inputsReqArch
    tempFilePaths := [("Requirements", "Requirements.json")] }

/-- Provider state awaiting review of an Architecture output with two
tasks alpha and beta. -/
def sAwaitArch : ProviderState Nat :=
  { agentOutputs := [("Architecture", [("alpha", 1), ("beta", 2)])]
    agentSequence := ["Architecture"]
    currentAgentIndex := 0
    initialInputs := some inputsArchOnly
    tempFilePaths := [("Architecture", "Architecture.json")] }

/-- Provider state about to dispatch the unknown agent name Deploy. -/
def sBeforeUnknown : ProviderState Nat :=
  { agentOutputs := []
    agentSequence := ["Deploy"]
    currentAgentIndex := -1
    initialInputs := some inputsUnknown
    tempFilePaths := [] }

/-- Payload that the Requirements branch assembles from the shared inputs
r, c, t. -/
def payloadReq : AgentPayload Nat := basePayload inputsReq

/-- Payload that the Architecture branch assembles when the store holds the
Requirements output task1 mapped to 1 and no KnowledgeBase output. -/
def payloadArchAfterReq : AgentPayload Nat :=
  { user_requirements := some "r"
    project_context := some "c"
    title := some "t"
    requirement_output := some [("task1", 1)]
    knowledge_output := none
    architecture_output := none
    skeleton_output := none }

/-- Payload that the Architecture branch assembles when neither predecessor
has a stored output: both predecessor fields are absent. -/
def payloadArchMissing : AgentPayload Nat :=
  { user_requirements := some "r"
    project_context := some "c"
    title := some "t"
    requirement_output := none
    knowledge_output := none
    architecture_output := none
    skeleton_output := none }

/-- Bool test for an error postMessage event. -/
def Event.isErrorMsg {V : Type} : Event V → Bool
  | .errorMsg _ => true
  | _ => false

/-- Bool test for an outgoing agent dispatch. -/
def Event.isApiCall {V : Type} : Event V → Bool
  | .apiCall _ _ => true
  | _ => false

/-- Bool test for a taskValidated or agentValidated postMessage event, the
two review-completion acknowledgments. -/
def Event.isValidationAck {V : Type} : Event V → Bool
  | .taskValidated _ _ => true
  | .agentValidated _ => true
  | _ => false

/-- Bool test for a showErrorMessage popup. -/
def Event.isShowError {V : Type} : Event V → Bool
  | .showErrorMsg _ => true
  | _ => false

/-- Provider state reached in a Requirements-then-Architecture run right
after the Requirements dispatch succeeded with output raw. -/
def sAfterReqDispatch {V : Type} (req ctx titl : String) (raw : TaskOutput V) :
    ProviderState V :=
  { agentOutputs := [("Requirements", raw)]
    agentSequence := ["Requirements", "Architecture"]
    currentAgentIndex := 0
    initialInputs := some ⟨req, ctx, titl, ["Requirements", "Architecture"]⟩
    tempFilePaths := [("Requirements", "Requirements.json")] }

/-- Provider state reached from sAfterReqDispatch once the human submitted
the (possibly edited) output edited and every task validated. -/
def sAfterReqValidated {V : Type} (req ctx titl : String) (edited : TaskOutput V) :
    ProviderState V :=
  { agentOutputs := [("Requirements", edited)]
    agentSequence := ["Requirements", "Architecture"]
    currentAgentIndex := 0
    initialInputs := some ⟨req, ctx, titl, ["Requirements", "Architecture"]⟩
    tempFilePaths := [("Requirements", "Requirements.json")] }

/-! Helper lemmas about the transition functions, shared by the claim
theorems below. -/

theorem resolveAgentCall_requirements {V : Type} (inputs : InitialInputs)
    (store : List (String × TaskOutput V)) :
    resolveAgentCall inputs store "Requirements" = some ("/agent/requirements", basePayload inputs) := rfl

theorem resolveAgentCall_architecture {V : Type} (inputs : InitialInputs)
    (store : List (String × TaskOutput V)) :
    resolveAgentCall inputs store "Architecture"
      = some ("/agent/architecture",
          { basePayload inputs with
              requirement_output := getKey store "Requirements"
              knowledge_output := getKey store "KnowledgeBase" }) := rfl

theorem resolveAgentCall_unknown {V : Type} (inputs : InitialInputs)
    (store : List (String × TaskOutput V)) (a : String)
    (h1 : a ≠ "KnowledgeBase") (h2 : a ≠ "Requirements") (h3 : a ≠ "Architecture")
    (h4 : a ≠ "Skeletons") (h5 : a ≠ "Generator") :
    resolveAgentCall inputs store a = none := by
  simp [resolveAgentCall, h1, h2, h3, h4, h5]

/-- When every task of the list validates successfully and the agent has an
entry in the store, the loop acknowledges each task in order and finishes
with agentValidated followed by the success popup. -/
theorem validateAllTasks_events_ok {V : Type} (vo : ValidateOracle V) (agent : String)
    (tasks : List (String × V)) :
    ∀ (s : ProviderState V) (acc : List (Event V)) (w : TaskOutput V),
    getKey s.agentOutputs agent = some w →
    (∀ t v, (t, v) ∈ tasks → vo t v = .ok ()) →
    (validateAllTasks vo agent tasks s acc).2
      = acc ++ tasks.map (fun p => Event.taskValidated agent p.1)
          ++ [Event.agentValidated agent,
              Event.infoMsg (agent ++ " output validated successfully.")] := by
  induction tasks with
  | nil =>
    intro s acc w hs hok
    simp [validateAllTasks]
  | cons hd tl ih =>
    intro s acc w hs hok
    obtain ⟨t, v⟩ := hd
    have hv : vo t v = .ok () := hok t v (List.mem_cons_self _ _)
    rw [validateAllTasks, validateTask, hv, hs]
    rw [ih _ _ (setKey w t v) (by rw [getKey_setKey_self]) (fun t2 v2 hm => hok t2 v2 (List.mem_cons_of_mem _ hm))]
    simp

/-- When every task of the list is already stored at its own value in the
entry of the agent and validates successfully, the loop leaves agentOutputs
exactly unchanged. -/
theorem validateAllTasks_state_fixed {V : Type} (vo : ValidateOracle V) (agent : String)
    (tasks : List (String × V)) :
    ∀ (s : ProviderState V) (acc : List (Event V)) (w : TaskOutput V),
    getKey s.agentOutputs agent = some w →
    (∀ t v, (t, v) ∈ tasks → vo t v = .ok () ∧ getKey w t = some v) →
    (validateAllTasks vo agent tasks s acc).1 = s := by
  induction tasks with
  | nil =>
    intro s acc w hs hok
    simp [validateAllTasks]
  | cons hd tl ih =>
    intro s acc w hs hok
    obtain ⟨t, v⟩ := hd
    obtain ⟨hv, hw⟩ := hok t v (List.mem_cons_self _ _)
    rw [validateAllTasks, validateTask, hv, hs]
    have hkeep : setKey w t v = w := setKey_eq_of_getKey_eq _ _ _ hw
    have hstore : setKey s.agentOutputs agent (setKey w t v) = s.agentOutputs := by
      rw [hkeep]
      exact setKey_eq_of_getKey_eq _ _ _ hs
    simp only [hstore]
    exact ih _ _ w hs (fun t2 v2 hm => hok t2 v2 (List.mem_cons_of_mem _ hm))

/-- Events already in the log survive the processing of further stimuli. -/
theorem mem_runFrom_events {V : Type} (invoke : InvokeOracle V) (vo : ValidateOracle V)
    (acts : List (Action V)) :
    ∀ (p : ProviderState V × List (Event V)) (e : Event V),
    e ∈ p.2 → e ∈ (runFrom invoke vo acts p).2 := by
  induction acts with
  | nil => intro p e h; exact h
  | cons a rest ih =>
    intro p e h
    rw [runFrom]
    exact ih _ e (List.mem_append_left _ h)

/-- Every branch of processNextAgent leaves currentAgentIndex incremented
by exactly one. -/
theorem processNextAgent_index {V : Type} (invoke : InvokeOracle V) (s : ProviderState V) :
    (processNextAgent invoke s).1.currentAgentIndex = s.currentAgentIndex + 1 := by
  unfold processNextAgent
  dsimp only
  split
  · simp
  · split
    · simp
    · split
      · simp
      · split <;> simp

/-- The only agent ever announced as started by processNextAgent is the one
at position currentAgentIndex + 1 of the sequence. -/
theorem processNextAgent_agentStarted {V : Type} (invoke : InvokeOracle V)
    (s : ProviderState V) (a : String)
    (h : Event.agentStarted a ∈ (processNextAgent invoke s).2.1) :
    a = s.agentSequence.getD (s.currentAgentIndex + 1).toNat "" := by
  unfold processNextAgent at h
  dsimp only at h
  split at h
  · simp at h
  · split at h
    · simp at h
    · split at h
      · simp at h
        rw [List.getD_eq_getElem?_getD]
        exact h
      · split at h <;> simp at h <;> rw [List.getD_eq_getElem?_getD] <;> exact h

/-- When initial inputs are set, processNextAgent never throws to its
caller: every failure is handled inside and surfaced as an event. -/
theorem processNextAgent_noThrow {V : Type} (invoke : InvokeOracle V)
    (s : ProviderState V) (inputs : InitialInputs)
    (hin : s.initialInputs = some inputs) :
    (processNextAgent invoke s).2.2 = none := by
  unfold processNextAgent
  dsimp only
  rw [hin]
  dsimp only
  split
  · rfl
  · split
    · rfl
    · split <;> rfl

/-- Whenever the payload of the agent at the next position resolves, the
dispatch fetch for it is emitted, whether the invocation then succeeds or
fails. -/
theorem processNextAgent_apiCall_mem {V : Type} (invoke : InvokeOracle V)
    (s : ProviderState V) (inputs : InitialInputs) (agent endpoint : String)
    (payload : AgentPayload V)
    (hin : s.initialInputs = some inputs)
    (hlt : s.currentAgentIndex + 1 < (s.agentSequence.length : Int))
    (hagent : s.agentSequence.getD (s.currentAgentIndex + 1).toNat "" = agent)
    (hres : resolveAgentCall inputs s.agentOutputs agent = some (endpoint, payload)) :
    Event.apiCall endpoint payload ∈ (processNextAgent invoke s).2.1 := by
  unfold processNextAgent
  dsimp only
  rw [hin]
  dsimp only
  rw [if_neg (not_le.mpr hlt), hagent, hres]
  dsimp only
  cases invoke endpoint payload <;> simp

/-- Step-level version of processNextAgent_apiCall_mem for a continueAgent
message. -/
theorem step_continue_apiCall_mem {V : Type} (invoke : InvokeOracle V)
    (vo : ValidateOracle V) (s : ProviderState V) (inputs : InitialInputs)
    (agent endpoint : String) (payload : AgentPayload V)
    (hin : s.initialInputs = some inputs)
    (hlt : s.currentAgentIndex + 1 < (s.agentSequence.length : Int))
    (hagent : s.agentSequence.getD (s.currentAgentIndex + 1).toNat "" = agent)
    (hres : resolveAgentCall inputs s.agentOutputs agent = some (endpoint, payload)) :
    Event.apiCall endpoint payload ∈ (step invoke vo s Action.continueAgent).2 := by
  dsimp only [step]
  rw [processNextAgent_noThrow invoke s inputs hin]
  exact processNextAgent_apiCall_mem invoke s inputs agent endpoint payload hin hlt hagent hres

/-! Claim theorems. -/

/-- C1: counterexample.  The claim states that the OutputStore holds an
entry for an agent only after its output has completed the review
checkpoint.  In the run below, a single startAgents message dispatches
Requirements, whose invocation succeeds; no review or validation action has
occurred (the event log contains no taskValidated or agentValidated event),
yet agentOutputs already holds the entry for Requirements: the source
stores the raw output at line 186, directly after the invocation and before
the review checkpoint. -/
theorem C1_counterexample :
    getKey (run invokeOk validateOk [Action.startAgents inputsReq]).1.agentOutputs "Requirements"
      = some [("task1", 1)]
    ∧ (run invokeOk validateOk [Action.startAgents inputsReq]).2.countP Event.isValidationAck
      = 0 := by
  decide

/-- C1 (amended): whenever processNextAgent dispatches an agent and the
invocation succeeds, agentOutputs gains the entry for that agent
immediately, before any review or validation of that output; the
accepted-submission transition later overwrites this entry rather than
creating it. -/
theorem C1_store_entry_at_invocation {V : Type} (invoke : InvokeOracle V)
    (s : ProviderState V) (inputs : InitialInputs) (agent endpoint : String)
    (payload : AgentPayload V) (output : TaskOutput V)
    (hin : s.initialInputs = some inputs)
    (hlt : s.currentAgentIndex + 1 < (s.agentSequence.length : Int))
    (hagent : s.agentSequence.getD (s.currentAgentIndex + 1).toNat "" = agent)
    (hres : resolveAgentCall inputs s.agentOutputs agent = some (endpoint, payload))
    (hinv : invoke endpoint payload = .ok output) :
    getKey (processNextAgent invoke s).1.agentOutputs agent = some output := by
  unfold processNextAgent
  dsimp only
  rw [hin]
  dsimp only
  rw [if_neg (not_le.mpr hlt), hagent, hres]
  dsimp only
  rw [hinv]
  dsimp only
  exact getKey_setKey_self _ _ _

/-- Witness for C1 (amended) at the state about to dispatch Requirements. -/
theorem C1_store_entry_at_invocation_witness :
    getKey (processNextAgent invokeOk sBeforeReq).1.agentOutputs "Requirements"
      = some [("task1", 1)] :=
  C1_store_entry_at_invocation invokeOk sBeforeReq inputsReq "Requirements"
    "/agent/requirements" payloadReq [("task1", 1)] rfl (by decide) rfl rfl rfl

/-- C2: counterexample.  The claim states that, for every interleaving of
the external messages, an agent is dispatched only when every earlier agent
has a validated output in the store.  In the interleaving below, a
startAgents message (sequence Requirements then Architecture) is followed
directly by a continueAgent message: Architecture is dispatched (its fetch
is emitted) although no validation of the Requirements output ever happened
(the event log contains no taskValidated or agentValidated event).  The
continueAgent handler at lines 73-76 calls processNextAgent with no
precondition check. -/
theorem C2_counterexample :
    Event.apiCall "/agent/architecture" payloadArchAfterReq
        ∈ (run invokeOk validateOk [Action.startAgents inputsReqArch, Action.continueAgent]).2
    ∧ (run invokeOk validateOk [Action.startAgents inputsReqArch, Action.continueAgent]).2.countP
        Event.isValidationAck = 0 := by
  decide

/-- C2 (amended): dispatch is driven purely by position.  A continueAgent
message always advances currentAgentIndex by exactly one, and the only
agent it can announce as started is the one at the new position; no check
that earlier agents passed review or validation is performed. -/
theorem C2_dispatch_by_position {V : Type} (invoke : InvokeOracle V)
    (vo : ValidateOracle V) (s : ProviderState V) (a : String)
    (h : Event.agentStarted a ∈ (step invoke vo s Action.continueAgent).2) :
    a = s.agentSequence.getD (s.currentAgentIndex + 1).toNat ""
    ∧ (step invoke vo s Action.continueAgent).1.currentAgentIndex
      = s.currentAgentIndex + 1 := by
  have hidx := processNextAgent_index invoke s
  rcases hE : (processNextAgent invoke s).2.2 with _ | e
  · simp only [step, hE] at h ⊢
    exact ⟨processNextAgent_agentStarted invoke s a h, hidx⟩
  · simp only [step, hE] at h ⊢
    rw [List.mem_append] at h
    rcases h with h | h
    · exact ⟨processNextAgent_agentStarted invoke s a h, hidx⟩
    · simp at h

/-- Witness for C2 (amended) at the state awaiting review of Requirements
in a Requirements-then-Architecture run. -/
theorem C2_dispatch_by_position_witness :
    "Architecture" = sAwaitReq.agentSequence.getD (sAwaitReq.currentAgentIndex + 1).toNat ""
    ∧ (step invokeOk validateOk sAwaitReq Action.continueAgent).1.currentAgentIndex
      = sAwaitReq.currentAgentIndex + 1 :=
  C2_dispatch_by_position invokeOk validateOk sAwaitReq "Architecture" (by decide)

/-- C3: counterexample.  The claim states that resolving the input payload
of an agent with a missing predecessor fails with a MissingDependency error
and does not assemble or dispatch a payload with an absent value.  In the
run below the sequence is just Architecture, so neither Requirements nor
KnowledgeBase has a store entry; the dispatch fetch for Architecture is
nevertheless emitted, with both predecessor fields absent, and no error
event occurs: the source reads this.agentOutputs directly (lines 159-160)
with no existence check. -/
theorem C3_counterexample :
    Event.apiCall "/agent/architecture" payloadArchMissing
        ∈ (run invokeOk validateOk [Action.startAgents inputsArchOnly]).2
    ∧ (run invokeOk validateOk [Action.startAgents inputsArchOnly]).2.countP
        Event.isErrorMsg = 0 := by
  decide

/-- C3 (amended): dependency resolution never fails.  When the store has no
entry for Requirements, the Architecture payload is still assembled, with
the requirement_output field absent (undefined, dropped by JSON.stringify)
and knowledge_output read from the store as-is. -/
theorem C3_missing_dependency_still_resolves {V : Type} (inputs : InitialInputs)
    (store : List (String × TaskOutput V))
    (h : getKey store "Requirements" = none) :
    resolveAgentCall inputs store "Architecture"
      = some ("/agent/architecture",
          { basePayload inputs with
              requirement_output := none
              knowledge_output := getKey store "KnowledgeBase" }) := by
  rw [resolveAgentCall_architecture, h]

/-- Witness for C3 (amended) at the empty store. -/
theorem C3_missing_dependency_still_resolves_witness :
    resolveAgentCall inputsArchOnly ([] : List (String × TaskOutput Nat)) "Architecture"
      = some ("/agent/architecture", payloadArchMissing) := by
  rw [C3_missing_dependency_still_resolves inputsArchOnly [] rfl]
  rfl

/-- C4: counterexample.  The claim states that the per-task validation
failure report names exactly which task failed.  Below, the same agent
state is reviewed twice with two-task outputs differing only in the name of
the failing second task (beta versus gamma); both runs produce exactly one
failure popup and the two popups are identical, so the report cannot name
the failed task: the inner catch at line 281 shows only Invalid JSON
format followed by the transport error text. -/
theorem C4_counterexample :
    ((validateCurrentAgentOutput (validateFailOn "beta") "Architecture"
        (ReviewContent.wellFormed [("alpha", 1), ("beta", 2)]) sAwaitArch).2.filter
        Event.isShowError)
      = ((validateCurrentAgentOutput (validateFailOn "gamma") "Architecture"
        (ReviewContent.wellFormed [("alpha", 1), ("gamma", 2)]) sAwaitArch).2.filter
        Event.isShowError)
    ∧ ((validateCurrentAgentOutput (validateFailOn "beta") "Architecture"
        (ReviewContent.wellFormed [("alpha", 1), ("beta", 2)]) sAwaitArch).2.filter
        Event.isShowError).length = 1 := by
  decide

/-- C4 (amended): when the second of two tasks fails validation, the
acknowledgment already given for the first task and the stored values are
not rolled back (the store keeps the whole reviewed output, first task
included), and the failure is surfaced to the human — but as a generic
Invalid JSON format popup carrying only the transport error text, without
naming the failed task. -/
theorem C4_no_rollback_generic_report {V : Type} (vo : ValidateOracle V)
    (agent t1 t2 p e : String) (v1 v2 : V) (s : ProviderState V)
    (hfile : getKey s.tempFilePaths agent = some p)
    (h1 : vo t1 v1 = .ok ())
    (h2 : vo t2 v2 = .error e) :
    (validateCurrentAgentOutput vo agent (.wellFormed [(t1, v1), (t2, v2)]) s).1.agentOutputs
      = setKey s.agentOutputs agent [(t1, v1), (t2, v2)]
    ∧ (validateCurrentAgentOutput vo agent (.wellFormed [(t1, v1), (t2, v2)]) s).2
      = [Event.taskValidated agent t1,
         Event.showErrorMsg ("Invalid JSON format: " ++ e
           ++ ". Please fix the errors and try again.")] := by
  unfold validateCurrentAgentOutput
  rw [hfile]
  dsimp only
  rw [validateAllTasks, validateTask, h1, getKey_setKey_self]
  dsimp only [setKey, if_pos]
  rw [if_pos rfl, setKey_setKey]
  rw [validateAllTasks, validateTask, h2]
  dsimp only [JsError.message]
  exact ⟨rfl, rfl⟩

/-- Witness for C4 (amended) at the Architecture review state with tasks
alpha and beta, beta rejected. -/
theorem C4_no_rollback_generic_report_witness :
    (validateCurrentAgentOutput (validateFailOn "beta") "Architecture"
        (.wellFormed [("alpha", 1), ("beta", 2)]) sAwaitArch).1.agentOutputs
      = setKey sAwaitArch.agentOutputs "Architecture" [("alpha", 1), ("beta", 2)]
    ∧ (validateCurrentAgentOutput (validateFailOn "beta") "Architecture"
        (.wellFormed [("alpha", 1), ("beta", 2)]) sAwaitArch).2
      = [Event.taskValidated "Architecture" "alpha",
         Event.showErrorMsg ("Invalid JSON format: API call failed with status 500"
           ++ ". Please fix the errors and try again.")] :=
  C4_no_rollback_generic_report (validateFailOn "beta") "Architecture" "alpha" "beta"
    "Architecture.json" "API call failed with status 500" 1 2 sAwaitArch rfl rfl rfl

/-- C5: for a run whose sequence is just Requirements and whose invocation
rejects, the run stops at position 0 with an empty OutputStore, exactly one
error event is posted and it names Requirements, and exactly one fetch ever
goes out (no further agent is dispatched automatically). -/
theorem C5_invocation_failure {V : Type} (invoke : InvokeOracle V)
    (vo : ValidateOracle V) (req ctx titl e : String)
    (hinv : invoke "/agent/requirements"
        (basePayload ⟨req, ctx, titl, ["Requirements"]⟩) = .error e) :
    (run invoke vo [Action.startAgents ⟨req, ctx, titl, ["Requirements"]⟩]).1.agentOutputs = []
    ∧ (run invoke vo [Action.startAgents ⟨req, ctx, titl, ["Requirements"]⟩]).1.currentAgentIndex = 0
    ∧ (run invoke vo [Action.startAgents ⟨req, ctx, titl, ["Requirements"]⟩]).2.countP
        Event.isErrorMsg = 1
    ∧ Event.errorMsg ("Agent Requirements failed: Error: " ++ e)
        ∈ (run invoke vo [Action.startAgents ⟨req, ctx, titl, ["Requirements"]⟩]).2
    ∧ (run invoke vo [Action.startAgents ⟨req, ctx, titl, ["Requirements"]⟩]).2.countP
        Event.isApiCall = 1 := by
  have hrun : run invoke vo [Action.startAgents ⟨req, ctx, titl, ["Requirements"]⟩]
      = ({ agentOutputs := []
           agentSequence := ["Requirements"]
           currentAgentIndex := 0
           initialInputs := some ⟨req, ctx, titl, ["Requirements"]⟩
           tempFilePaths := [] },
         [Event.setAgentSequence ["Requirements"],
          Event.agentStarted "Requirements",
          Event.apiCall "/agent/requirements" (basePayload ⟨req, ctx, titl, ["Requirements"]⟩),
          Event.errorMsg ("Agent Requirements failed: Error: " ++ e)]) := by
    rw [run, runFrom, runFrom]
    dsimp only [step]
    unfold processNextAgent
    dsimp only
    simp only [show ((-1 : Int) + 1) = 0 from rfl, show ((0 : Int)).toNat = 0 from rfl,
      List.getD_cons_zero]
    rw [if_neg (by decide), resolveAgentCall_requirements]
    dsimp only
    rw [hinv]
    rfl
  rw [hrun]
  refine ⟨rfl, rfl, ?_, ?_, ?_⟩
  · simp [List.countP_cons, Event.isErrorMsg]
  · simp
  · simp [List.countP_cons, Event.isApiCall]

/-- Witness for C5 at the concrete inputs r, c, t and the always-failing
invocation oracle. -/
theorem C5_invocation_failure_witness :
    (run invokeFail validateOk [Action.startAgents inputsReq]).1.agentOutputs = []
    ∧ (run invokeFail validateOk [Action.startAgents inputsReq]).1.currentAgentIndex = 0
    ∧ (run invokeFail validateOk [Action.startAgents inputsReq]).2.countP
        Event.isErrorMsg = 1
    ∧ Event.errorMsg ("Agent Requirements failed: Error: " ++ "API call failed with status 500")
        ∈ (run invokeFail validateOk [Action.startAgents inputsReq]).2
    ∧ (run invokeFail validateOk [Action.startAgents inputsReq]).2.countP
        Event.isApiCall = 1 :=
  C5_invocation_failure invokeFail validateOk "r" "c" "t" "API call failed with status 500" rfl

/-- C6: a malformed review submission leaves the provider state exactly
unchanged (same OutputStore, same position), produces only the descriptive
Invalid JSON format popup, and the gate stays open: a later well-formed
submission for the same agent, all of whose tasks validate, is accepted
(agentValidated is posted). -/
theorem C6_malformed_review {V : Type} (vo : ValidateOracle V) (agent m p : String)
    (s : ProviderState V) (u : TaskOutput V)
    (hfile : getKey s.tempFilePaths agent = some p)
    (hok : ∀ t v, (t, v) ∈ u → vo t v = .ok ()) :
    (validateCurrentAgentOutput vo agent (.malformed m) s).1 = s
    ∧ (validateCurrentAgentOutput vo agent (.malformed m) s).2
        = [Event.showErrorMsg ("Invalid JSON format: " ++ m
            ++ ". Please fix the errors and try again.")]
    ∧ Event.agentValidated agent
        ∈ (validateCurrentAgentOutput vo agent (.wellFormed u)
            (validateCurrentAgentOutput vo agent (.malformed m) s).1).2 := by
  have hmal : validateCurrentAgentOutput vo agent (.malformed m) s
      = (s, [Event.showErrorMsg ("Invalid JSON format: " ++ m
          ++ ". Please fix the errors and try again.")]) := by
    unfold validateCurrentAgentOutput
    rw [hfile]
  refine ⟨by rw [hmal], by rw [hmal], ?_⟩
  rw [hmal]
  dsimp only
  unfold validateCurrentAgentOutput
  rw [hfile]
  dsimp only
  rw [validateAllTasks_events_ok vo agent u _ [] u (getKey_setKey_self _ _ _) hok]
  simp

/-- Witness for C6 at the Architecture review state. -/
theorem C6_malformed_review_witness :
    (validateCurrentAgentOutput validateOk "Architecture"
        (.malformed "Unexpected token") sAwaitArch).1 = sAwaitArch
    ∧ (validateCurrentAgentOutput validateOk "Architecture"
        (.malformed "Unexpected token") sAwaitArch).2
        = [Event.showErrorMsg ("Invalid JSON format: " ++ "Unexpected token"
            ++ ". Please fix the errors and try again.")]
    ∧ Event.agentValidated "Architecture"
        ∈ (validateCurrentAgentOutput validateOk "Architecture"
            (.wellFormed [("alpha", 1)])
            (validateCurrentAgentOutput validateOk "Architecture"
              (.malformed "Unexpected token") sAwaitArch).1).2 :=
  C6_malformed_review validateOk "Architecture" "Unexpected token" "Architecture.json"
    sAwaitArch [("alpha", 1)] rfl (fun _ _ _ => rfl)

/-- C7: in a Requirements-then-Architecture run where Requirements succeeds
and its (possibly human-edited) output edited passes review and validation,
the payload of the Architecture dispatch carries that exact stored value
verbatim in its requirement_output field. -/
theorem C7_verbatim_dependency {V : Type} (invoke : InvokeOracle V)
    (vo : ValidateOracle V) (req ctx titl : String) (raw edited : TaskOutput V)
    (hinv : invoke "/agent/requirements"
        (basePayload ⟨req, ctx, titl, ["Requirements", "Architecture"]⟩) = .ok raw)
    (hok : ∀ t v, (t, v) ∈ edited → vo t v = .ok ())
    (hnd : (edited.map Prod.fst).Nodup) :
    Event.apiCall "/agent/architecture"
      { basePayload ⟨req, ctx, titl, ["Requirements", "Architecture"]⟩ with
          requirement_output := some edited
          knowledge_output := none }
      ∈ (run invoke vo
          [Action.startAgents ⟨req, ctx, titl, ["Requirements", "Architecture"]⟩,
           Action.humanValidate "Requirements" (.wellFormed edited),
           Action.continueAgent]).2 := by
  have h1 : (step invoke vo (initState V)
      (Action.startAgents ⟨req, ctx, titl, ["Requirements", "Architecture"]⟩)).1
      = sAfterReqDispatch req ctx titl raw := by
    dsimp only [step]
    unfold processNextAgent
    dsimp only
    simp only [show ((-1 : Int) + 1) = 0 from rfl, show ((0 : Int)).toNat = 0 from rfl,
      List.getD_cons_zero]
    rw [if_neg (by decide), resolveAgentCall_requirements]
    dsimp only
    rw [hinv]
    rfl
  have h2 : (step invoke vo (sAfterReqDispatch req ctx titl raw)
      (Action.humanValidate "Requirements" (ReviewContent.wellFormed edited))).1
      = sAfterReqValidated req ctx titl edited := by
    dsimp only [step]
    unfold validateCurrentAgentOutput
    rw [show getKey (sAfterReqDispatch req ctx titl raw).tempFilePaths "Requirements"
        = some "Requirements.json" from rfl]
    dsimp only
    exact validateAllTasks_state_fixed vo "Requirements" edited _ [] edited
      (getKey_setKey_self _ _ _)
      (fun t v hm => ⟨hok t v hm, getKey_eq_of_mem_nodup edited t v hnd hm⟩)
  rw [run, runFrom]
  dsimp only
  rw [h1, runFrom]
  dsimp only
  rw [h2, runFrom, runFrom]
  dsimp only
  apply List.mem_append_right
  exact step_continue_apiCall_mem invoke vo (sAfterReqValidated req ctx titl edited)
    ⟨req, ctx, titl, ["Requirements", "Architecture"]⟩ "Architecture" "/agent/architecture"
    _ rfl (of_decide_eq_true rfl) rfl rfl

/-- Witness for C7 with the human editing the Requirements output from
task1 mapped to 1 into task1 mapped to 7: the edited value 7 reaches the
Architecture payload. -/
theorem C7_verbatim_dependency_witness :
    Event.apiCall "/agent/architecture"
      { basePayload ⟨"r", "c", "t", ["Requirements", "Architecture"]⟩ with
          requirement_output := some [("task1", 7)]
          knowledge_output := none }
      ∈ (run invokeOk validateOk
          [Action.startAgents ⟨"r", "c", "t", ["Requirements", "Architecture"]⟩,
           Action.humanValidate "Requirements" (.wellFormed [("task1", 7)]),
           Action.continueAgent]).2 :=
  C7_verbatim_dependency invokeOk validateOk "r" "c" "t" [("task1", 1)] [("task1", 7)]
    rfl (fun _ _ _ => rfl) (by decide)

/-- C8: re-validation is idempotent on the store.  When the stored entry of
the agent already maps the task to the submitted value and the validation
call is acknowledged, validateTask succeeds, posts the acknowledgment, and
leaves the provider state exactly as it was. -/
theorem C8_revalidation_idempotent {V : Type} (vo : ValidateOracle V)
    (agentName taskName : String) (v : V) (s : ProviderState V) (out : TaskOutput V)
    (hstore : getKey s.agentOutputs agentName = some out)
    (htask : getKey out taskName = some v)
    (hack : vo taskName v = .ok ()) :
    validateTask vo agentName taskName v s
      = .ok (s, [Event.taskValidated agentName taskName]) := by
  unfold validateTask
  rw [hack]
  dsimp only
  rw [hstore]
  dsimp only
  rw [setKey_eq_of_getKey_eq out taskName v htask, setKey_eq_of_getKey_eq _ _ _ hstore]

/-- Witness for C8 at the stored Architecture output, resubmitting alpha
at its stored value 1. -/
theorem C8_revalidation_idempotent_witness :
    validateTask validateOk "Architecture" "alpha" 1 sAwaitArch
      = .ok (sAwaitArch, [Event.taskValidated "Architecture" "alpha"]) :=
  C8_revalidation_idempotent validateOk "Architecture" "alpha" 1 sAwaitArch
    [("alpha", 1), ("beta", 2)] rfl rfl rfl

/-- C9: dispatching an agent name outside the five known names posts
agentStarted and then exactly one error event, whose message wraps Unknown
agent and the name in the agent-failed form; the store is untouched, no
fetch goes out, and nothing further is dispatched (the returned event list
is exactly these two events and no error escapes to the caller). -/
theorem C9_unknown_agent {V : Type} (invoke : InvokeOracle V) (s : ProviderState V)
    (inputs : InitialInputs) (a : String)
    (hin : s.initialInputs = some inputs)
    (hlt : s.currentAgentIndex + 1 < (s.agentSequence.length : Int))
    (hagent : s.agentSequence.getD (s.currentAgentIndex + 1).toNat "" = a)
    (h1 : a ≠ "KnowledgeBase") (h2 : a ≠ "Requirements") (h3 : a ≠ "Architecture")
    (h4 : a ≠ "Skeletons") (h5 : a ≠ "Generator") :
    (processNextAgent invoke s).1.agentOutputs = s.agentOutputs
    ∧ (processNextAgent invoke s).2.1
        = [Event.agentStarted a,
           Event.errorMsg ("Agent " ++ a ++ " failed: Error: Unknown agent: " ++ a)]
    ∧ (processNextAgent invoke s).2.2 = none := by
  unfold processNextAgent
  dsimp only
  rw [hin]
  dsimp only
  rw [if_neg (not_le.mpr hlt), hagent,
    resolveAgentCall_unknown inputs s.agentOutputs a h1 h2 h3 h4 h5]
  exact ⟨rfl, rfl, rfl⟩

/-- Witness for C9 at the unknown agent name Deploy. -/
theorem C9_unknown_agent_witness :
    (processNextAgent invokeOk sBeforeUnknown).1.agentOutputs = sBeforeUnknown.agentOutputs
    ∧ (processNextAgent invokeOk sBeforeUnknown).2.1
        = [Event.agentStarted "Deploy",
           Event.errorMsg ("Agent " ++ "Deploy" ++ " failed: Error: Unknown agent: " ++ "Deploy")]
    ∧ (processNextAgent invokeOk sBeforeUnknown).2.2 = none :=
  C9_unknown_agent invokeOk sBeforeUnknown inputsUnknown "Deploy" rfl (by decide) rfl
    (by decide) (by decide) (by decide) (by decide) (by decide)

/-- C10: per-task validation is atomic on error.  When the remote
validation call rejects, the validateTask message leaves the provider state
(and so the stored OutputStore entry) exactly unchanged and posts only the
wrapped failure message — no taskValidated success event; the store write
and the success event occur only on the success path, after the call
resolves. -/
theorem C10_validation_atomic_on_error {V : Type} (invoke : InvokeOracle V)
    (vo : ValidateOracle V) (agentName taskName : String) (v : V)
    (s : ProviderState V) (e : String)
    (hfail : vo taskName v = .error e) :
    step invoke vo s (Action.validateTaskMsg agentName taskName v)
      = (s, [Event.errorMsg ("Failed to process request: " ++ ("Error: " ++ e))]) := by
  dsimp only [step]
  unfold validateTask
  rw [hfail]
  rfl

/-- Witness for C10 at the Architecture review state, with the remote
validator rejecting task beta. -/
theorem C10_validation_atomic_on_error_witness :
    step invokeOk (validateFailOn "beta") sAwaitArch
        (Action.validateTaskMsg "Architecture" "beta" 2)
      = (sAwaitArch,
         [Event.errorMsg ("Failed to process request: "
            ++ ("Error: " ++ "API call failed with status 500"))]) :=
  C10_validation_atomic_on_error invokeOk (validateFailOn "beta") "Architecture" "beta" 2
    sAwaitArch "API call failed with status 500" rfl

end SdlcAi
